import Mathlib

/-!
Shallow embedding of the PIILeakTest detection-and-assertion engine.

Python strings are modelled as lists of characters (`Str`), pandas
DataFrames as ordered lists of named columns whose cells are optional
strings (`none` models a NaN cell), Python dicts as insertion-ordered
association lists, and Python sets as lists with membership-guarded
insertion.  Regular expressions from the source are translated into
explicit character-list predicates; `re.match` anchors only at the start
of the string, patterns written `^...$` are translated as whole-string
shapes (all values reaching the matchers are pre-stripped, so the
Python `$`-before-final-newline subtlety cannot arise).  Floating point
entropy is idealised over the real numbers; that one definition is
noncomputable, everything else evaluates by kernel reduction.
-/

abbrev Str := List Char

/-- models.py `PIIType`: closed enumeration of PII types. -/
inductive PIIType where
  | email
  | phone
  | ssn
  | credit_card
  | ip_address
  | passport
  | dob
  | zip_code
  | full_name
  | account_number
  | high_entropy_token
deriving DecidableEq

/-- models.py `MaskingType`: masking states of a detected value. -/
inductive MaskingType where
  | plaintext
  | part_mask
  | full_mask
  | hash
  | tokenized
deriving DecidableEq

/-- models.py `Severity`: severity levels (string-valued enum in the source;
the string values "CRITICAL" .. "INFO" are recovered by `severityStr`). -/
inductive Severity where
  | critical
  | high
  | medium
  | low
  | info
deriving DecidableEq

/-- The `.value` string of a `PIIType` member. -/
def piiTypeStr : PIIType → Str
  | .email => "email".toList
  | .phone => "phone".toList
  | .ssn => "ssn".toList
  | .credit_card => "credit_card".toList
  | .ip_address => "ip_address".toList
  | .passport => "passport".toList
  | .dob => "dob".toList
  | .zip_code => "zip_code".toList
  | .full_name => "full_name".toList
  | .account_number => "account_number".toList
  | .high_entropy_token => "high_entropy_token".toList

/-- The `.value` string of a `Severity` member (models.py gives the
severities uppercase string values, and Python compares them as strings). -/
def severityStr : Severity → Str
  | .critical => "CRITICAL".toList
  | .high => "HIGH".toList
  | .medium => "MEDIUM".toList
  | .low => "LOW".toList
  | .info => "INFO".toList

/-- models.py `Finding`. -/
structure Finding where
  dataset : Str
  column : Str
  pii_type : PIIType
  masking_type : MaskingType
  row_index : Option Nat
  redacted_sample : Option Str
  count : Nat
  severity : Severity
  message : Str
deriving DecidableEq

/-- models.py `DatasetPolicy`. -/
structure DatasetPolicy where
  name : Str
  path : Str
  format : Str
  allowed_pii_types : List PIIType
  forbidden_pii_types : List PIIType
  masking_required_for : List PIIType
  hash_allowed_for : List PIIType
deriving DecidableEq

/-- models.py `LineageEdge`. -/
structure LineageEdge where
  source : Str
  target : Str
deriving DecidableEq

/-- models.py `AssertionResult`. -/
structure AssertionResult where
  assertion_type : Str
  dataset : Str
  passed : Bool
  findings : List Finding
  message : Str
  severity : Severity
deriving DecidableEq

/-- models.py `ThresholdConfig` (the float `entropy_threshold` field is
outside the discrete model; the fields relevant to CI gating are kept). -/
structure ThresholdConfig where
  max_violations_to_show : Nat
  fail_on_severity : List Severity
deriving DecidableEq

/-- models.py `SuiteResult` (wall-clock fields `timestamp` and
`execution_time_seconds` are irrelevant to the logic and omitted). -/
structure SuiteResult where
  suite_name : Str
  total_datasets : Nat
  total_assertions : Nat
  passed_assertions : Nat
  failed_assertions : Nat
  assertion_results : List AssertionResult
  overall_passed : Bool
deriving DecidableEq

/-- models.py `SuiteResult.should_fail_ci`: CI fails when some assertion
result is failed with severity CRITICAL or HIGH. -/
def should_fail_ci (sr : SuiteResult) : Bool :=
  0 < (sr.assertion_results.filter
    (fun ar => !ar.passed &&
      decide (ar.severity = Severity.critical ∨ ar.severity = Severity.high))).length

/- ### Character helpers (Python `str` methods over ASCII) -/

/-- Python `str.strip` whitespace class (ASCII part). -/
def pyIsSpace (c : Char) : Bool :=
  c == ' ' || c == '\t' || c == '\n' || c == '\x0d' || c == '\x0b' || c == '\x0c'

/-- Python `str.strip()`: drop whitespace from both ends. -/
def pyStrip (l : Str) : Str :=
  ((l.dropWhile pyIsSpace).reverse.dropWhile pyIsSpace).reverse

/-- Python `str.isdigit()` (ASCII): nonempty and all decimal digits. -/
def pyIsDigitStr (l : Str) : Bool :=
  !l.isEmpty && l.all Char.isDigit

/-- Hexadecimal character class `[a-fA-F0-9]`. -/
def isHexChar (c : Char) : Bool :=
  c.isDigit || ('a' ≤ c && c ≤ 'f') || ('A' ≤ c && c ≤ 'F')

/-- The recurring regex `^[a-fA-F0-9]{32,64}$` used as `hash_pattern` by
the matchers in value_patterns.py and by detect_credit_card_masking:
a hex string of any length from 32 to 64. -/
def hashShape (l : Str) : Bool :=
  32 ≤ l.length && l.length ≤ 64 && l.all isHexChar

/- ### detectors/luhn.py -/

/-- Decimal digit list of a number as `digits_of` produces it via `str(n)`;
the arguments that actually occur are `d * 2` for a digit `d`, so values
never exceed 18 and two decimal places suffice. -/
def digitsOf (n : Nat) : List Nat :=
  if n < 10 then [n] else [n / 10, n % 10]

/-- Numeric value of a digit character. -/
def charVal (c : Char) : Nat := c.toNat - '0'.toNat

/-- Elements at even positions (Python slice `[::2]` of a list). -/
def everyOther : List Nat → List Nat
  | [] => []
  | [a] => [a]
  | a :: _ :: rest => a :: everyOther rest

/-- luhn.py `luhn_checksum`: `odd_digits = digits[-1::-2]` are the digits at
even offsets of the reversed digit list, `even_digits = digits[-2::-2]` the
rest; the latter are doubled and digit-summed. -/
def luhn_checksum (card_number : Str) : Bool :=
  let digits := card_number.map charVal
  let odd_digits := everyOther digits.reverse
  let even_digits := everyOther (digits.reverse.drop 1)
  (odd_digits.sum + (even_digits.map (fun d => (digitsOf (d * 2)).sum)).sum) % 10 == 0

/-- luhn.py: `re.sub(r'[\s\-]', '', value)` — remove whitespace and hyphens. -/
def removeSeps (l : Str) : Str :=
  l.filter (fun c => !(pyIsSpace c || c == '-'))

/-- luhn.py `is_credit_card`. -/
def is_credit_card (value : Str) : Bool :=
  let cleaned := removeSeps value
  if !pyIsDigitStr cleaned || cleaned.length < 13 || cleaned.length > 19 then false
  else luhn_checksum cleaned

/-- luhn.py `detect_credit_card_masking` (the final two branches of the
source both return plaintext and are collapsed the way Python evaluates
them). -/
def detect_credit_card_masking (value : Str) : MaskingType :=
  if hashShape value then .hash
  else if value.contains '*' || value.contains 'X' || value.contains 'x' then .part_mask
  else if is_credit_card value then .plaintext
  else .plaintext

/- ### detectors/entropy.py -/

/-- entropy.py `calculate_shannon_entropy`, idealised over ℝ: character
frequencies are collected in first-occurrence order (`l.dedup`), and the
entropy is `-Σ p·log2 p`.  Real-valued, hence noncomputable; no other
definition forces this branch during evaluation. -/
noncomputable def calculate_shannon_entropy (data : Str) : ℝ :=
  if data.isEmpty then 0
  else
    -(((data.dedup).map (fun ch =>
        ((data.count ch : ℝ) / (data.length : ℝ)) *
          Real.logb 2 ((data.count ch : ℝ) / (data.length : ℝ)))).sum)

/-- Token alphabet `[a-zA-Z0-9_\-+=/.]` of entropy.py. -/
def tokenChar (c : Char) : Bool :=
  c.isAlphanum || c == '_' || c == '-' || c == '+' || c == '=' || c == '/' || c == '.'

/-- entropy.py `is_high_entropy_token` at the default threshold 4.5. -/
noncomputable def is_high_entropy_token (value : Str) : Bool :=
  if value.length < 16 then false
  else if !(value.all tokenChar) then false
  else decide ((4.5 : ℝ) ≤ calculate_shannon_entropy value)

/- ### detectors/value_patterns.py — regex shapes as character predicates -/

/-- Word character class `\w` (ASCII). -/
def isWordChar (c : Char) : Bool :=
  c.isAlphanum || c == '_'

/-- Does `l` start with the character sequence `pat`? -/
def seqStarts : Str → Str → Bool
  | [], _ => true
  | _ :: _, [] => false
  | p :: ps, c :: cs => p == c && seqStarts ps cs

/-- Does `pat` occur contiguously anywhere in `l` (Python `pat in l`)? -/
def seqInside (pat : Str) : Str → Bool
  | [] => pat.isEmpty
  | c :: rest => seqStarts pat (c :: rest) || seqInside pat rest

/-- Email local-part class `[a-zA-Z0-9._%+-]`. -/
def emailLocalChar (c : Char) : Bool :=
  c.isAlphanum || c == '.' || c == '_' || c == '%' || c == '+' || c == '-'

/-- Email domain class `[a-zA-Z0-9.-]`. -/
def emailDomainChar (c : Char) : Bool :=
  c.isAlphanum || c == '.' || c == '-'

/-- EmailMatcher plain pattern `^[a-zA-Z0-9._%+-]+@[a-zA-Z0-9.-]+\.[a-zA-Z]{2,}$`:
a nonempty local part of local-class characters, `@`, and a domain that
splits at some dot position into a nonempty domain-class part and a final
run of at least two letters. -/
def emailPlainShape (l : Str) : Bool :=
  let loc := l.takeWhile (fun c => !(c == '@'))
  match l.drop loc.length with
  | '@' :: rest =>
      !loc.isEmpty && loc.all emailLocalChar &&
        (List.range rest.length).any (fun p =>
          rest.getD p ' ' == '.' && 1 ≤ p && (rest.take p).all emailDomainChar &&
          2 ≤ rest.length - (p + 1) && (rest.drop (p + 1)).all Char.isAlpha)
  | _ => false

/-- EmailMatcher masked pattern `\*+@.*\.\w+` under `re.match` (anchored at
the start only): a run of stars, `@`, then some later dot followed by a
word character, with no newline in between. -/
def emailMaskedShape (l : Str) : Bool :=
  let stars := l.takeWhile (fun c => c == '*')
  match l.drop stars.length with
  | '@' :: rest =>
      !stars.isEmpty &&
        (List.range rest.length).any (fun p =>
          rest.getD p ' ' == '.' && (rest.take p).all (fun c => !(c == '\n')) &&
          p + 1 < rest.length && isWordChar (rest.getD (p + 1) ' '))
  | _ => false

/-- `EmailMatcher.matches`. -/
def emailMatches (value : Str) : Bool :=
  let v := pyStrip value
  emailPlainShape v || emailMaskedShape v

/-- `EmailMatcher.detect_masking`. -/
def emailDetectMasking (value : Str) : MaskingType :=
  if hashShape value then .hash
  else if value.contains '*' then .part_mask
  else if emailPlainShape value then .plaintext
  else .plaintext

/-- PhoneMatcher pattern `^\d{3}-\d{3}-\d{4}$`. -/
def phonePlain1 (l : Str) : Bool :=
  l.length == 12 && (l.take 3).all Char.isDigit && l.getD 3 ' ' == '-' &&
    ((l.drop 4).take 3).all Char.isDigit && l.getD 7 ' ' == '-' &&
    (l.drop 8).all Char.isDigit

/-- Tail `\d{3}-\d{4}$` shared by the parenthesised phone pattern. -/
def phoneTail (t : Str) : Bool :=
  t.length == 8 && (t.take 3).all Char.isDigit && t.getD 3 ' ' == '-' &&
    (t.drop 4).all Char.isDigit

/-- PhoneMatcher pattern `^\(\d{3}\)\s*\d{3}-\d{4}$`. -/
def phonePlain2 (l : Str) : Bool :=
  match l with
  | '(' :: rest =>
      (rest.take 3).length == 3 && (rest.take 3).all Char.isDigit &&
        (match rest.drop 3 with
          | ')' :: rest2 => phoneTail (rest2.dropWhile pyIsSpace)
          | _ => false)
  | _ => false

/-- PhoneMatcher pattern `^\d{10}$`. -/
def phonePlain3 (l : Str) : Bool :=
  l.length == 10 && l.all Char.isDigit

/-- PhoneMatcher pattern `^\+1\d{10}$`. -/
def phonePlain4 (l : Str) : Bool :=
  match l with
  | '+' :: '1' :: rest => rest.length == 10 && rest.all Char.isDigit
  | _ => false

/-- Four consecutive digits starting at offset `j`. -/
def fourDigitsAt (l : Str) (j : Nat) : Bool :=
  ((l.drop j).take 4).length == 4 && ((l.drop j).take 4).all Char.isDigit

/-- PhoneMatcher masked pattern `\*+.*\d{4}` under `re.match`: a leading
star, then four consecutive digits somewhere after position 0 with no
newline before them. -/
def phoneMasked1 (l : Str) : Bool :=
  l.headD ' ' == '*' &&
    (List.range (l.length + 1)).any (fun j =>
      1 ≤ j && fourDigitsAt l j && ((l.take j).drop 1).all (fun c => !(c == '\n')))

/-- PhoneMatcher masked pattern `\(\*+\).*\d{4}` under `re.match`. -/
def phoneMasked2 (l : Str) : Bool :=
  match l with
  | '(' :: rest =>
      let stars := rest.takeWhile (fun c => c == '*')
      (match rest.drop stars.length with
        | ')' :: rest2 =>
            !stars.isEmpty &&
              (List.range (rest2.length + 1)).any (fun j =>
                fourDigitsAt rest2 j && (rest2.take j).all (fun c => !(c == '\n')))
        | _ => false)
  | _ => false

/-- `PhoneMatcher.matches`. -/
def phoneMatches (value : Str) : Bool :=
  let v := pyStrip value
  phonePlain1 v || phonePlain2 v || phonePlain3 v || phonePlain4 v ||
    phoneMasked1 v || phoneMasked2 v

/-- `PhoneMatcher.detect_masking`. -/
def phoneDetectMasking (value : Str) : MaskingType :=
  if hashShape value then .hash
  else if value.contains '*' then .part_mask
  else if phonePlain1 value || phonePlain2 value || phonePlain3 value ||
      phonePlain4 value then .plaintext
  else .plaintext

/-- SSN pattern `^\d{3}-\d{2}-\d{4}$`. -/
def ssnPlain1 (l : Str) : Bool :=
  l.length == 11 && (l.take 3).all Char.isDigit && l.getD 3 ' ' == '-' &&
    ((l.drop 4).take 2).all Char.isDigit && l.getD 6 ' ' == '-' &&
    (l.drop 7).all Char.isDigit

/-- SSN pattern `^\d{9}$`. -/
def ssnPlain2 (l : Str) : Bool :=
  l.length == 9 && l.all Char.isDigit

/-- Mask character class `[\*X]`. -/
def maskChar (c : Char) : Bool :=
  c == '*' || c == 'X'

/-- SSN masked pattern `^[\*X]{3}-[\*X]{2}-\d{4}$`. -/
def ssnMasked1 (l : Str) : Bool :=
  l.length == 11 && (l.take 3).all maskChar && l.getD 3 ' ' == '-' &&
    ((l.drop 4).take 2).all maskChar && l.getD 6 ' ' == '-' &&
    (l.drop 7).all Char.isDigit

/-- SSN masked pattern `^[\*X]{5}\d{4}$`. -/
def ssnMasked2 (l : Str) : Bool :=
  l.length == 9 && (l.take 5).all maskChar && (l.drop 5).all Char.isDigit

/-- `SSNMatcher.matches`. -/
def ssnMatches (value : Str) : Bool :=
  let v := pyStrip value
  ssnPlain1 v || ssnPlain2 v || ssnMasked1 v || ssnMasked2 v

/-- `SSNMatcher.detect_masking` (capital `X` only, as in the source). -/
def ssnDetectMasking (value : Str) : MaskingType :=
  if hashShape value then .hash
  else if value.contains '*' || value.contains 'X' then .part_mask
  else if ssnPlain1 value || ssnPlain2 value then .plaintext
  else .plaintext

/-- One octet of the IPv4 regex `(25[0-5]|2[0-4][0-9]|[01]?[0-9][0-9]?)`. -/
def ipOctet (s : Str) : Bool :=
  s.all Char.isDigit &&
    (s.length == 1 || s.length == 2 ||
      (s.length == 3 &&
        (s.getD 0 ' ' == '0' || s.getD 0 ' ' == '1' ||
          (s.getD 0 ' ' == '2' &&
            (s.getD 1 ' ' ≤ '4' || (s.getD 1 ' ' == '5' && s.getD 2 ' ' ≤ '5'))))))

/-- IPv4 dotted-quad shape: exactly four octets separated by dots. -/
def ipShape (l : Str) : Bool :=
  let parts := l.splitOn '.'
  parts.length == 4 && parts.all ipOctet

/-- `IPAddressMatcher.matches`. -/
def ipMatches (value : Str) : Bool :=
  ipShape (pyStrip value)

/-- `IPAddressMatcher.detect_masking`. -/
def ipDetectMasking (value : Str) : MaskingType :=
  if hashShape value then .hash
  else if value.contains '*' then .part_mask
  else .plaintext

/-- ZIP pattern `^\d{5}$`. -/
def zipShape1 (l : Str) : Bool :=
  l.length == 5 && l.all Char.isDigit

/-- ZIP pattern `^\d{5}-\d{4}$`. -/
def zipShape2 (l : Str) : Bool :=
  l.length == 10 && (l.take 5).all Char.isDigit && l.getD 5 ' ' == '-' &&
    (l.drop 6).all Char.isDigit

/-- `ZipCodeMatcher.matches`. -/
def zipMatches (value : Str) : Bool :=
  let v := pyStrip value
  zipShape1 v || zipShape2 v

/-- `ZipCodeMatcher.detect_masking`: always plaintext. -/
def zipDetectMasking (_ : Str) : MaskingType :=
  .plaintext

/-- DOB pattern `^\d{4}-\d{2}-\d{2}$`. -/
def dobShape1 (l : Str) : Bool :=
  l.length == 10 && (l.take 4).all Char.isDigit && l.getD 4 ' ' == '-' &&
    ((l.drop 5).take 2).all Char.isDigit && l.getD 7 ' ' == '-' &&
    (l.drop 8).all Char.isDigit

/-- DOB pattern `^\d{2}/\d{2}/\d{4}$`. -/
def dobShape2 (l : Str) : Bool :=
  l.length == 10 && (l.take 2).all Char.isDigit && l.getD 2 ' ' == '/' &&
    ((l.drop 3).take 2).all Char.isDigit && l.getD 5 ' ' == '/' &&
    (l.drop 6).all Char.isDigit

/-- DOB pattern `^\d{2}-\d{2}-\d{4}$`. -/
def dobShape3 (l : Str) : Bool :=
  l.length == 10 && (l.take 2).all Char.isDigit && l.getD 2 ' ' == '-' &&
    ((l.drop 3).take 2).all Char.isDigit && l.getD 5 ' ' == '-' &&
    (l.drop 6).all Char.isDigit

/-- `DOBMatcher.matches`: a date shape plus the `'19' in value or
'20' in value` year heuristic. -/
def dobMatches (value : Str) : Bool :=
  let v := pyStrip value
  (dobShape1 v || dobShape2 v || dobShape3 v) &&
    (seqInside ("19".toList) v || seqInside ("20".toList) v)

/-- `DOBMatcher.detect_masking`: the source has no hash branch here. -/
def dobDetectMasking (value : Str) : MaskingType :=
  if value.contains '*' || value.contains 'X' then .part_mask
  else .plaintext

/-- Account pattern `^\d{8,16}$`. -/
def acctPlain (l : Str) : Bool :=
  8 ≤ l.length && l.length ≤ 16 && l.all Char.isDigit

/-- Account masked pattern `^\*+\d{4}$`: at least one star, then exactly
four trailing digits. -/
def acctMasked (l : Str) : Bool :=
  5 ≤ l.length && (l.take (l.length - 4)).all (fun c => c == '*') &&
    (l.drop (l.length - 4)).all Char.isDigit

/-- `AccountNumberMatcher.matches`. -/
def acctMatches (value : Str) : Bool :=
  let v := pyStrip value
  acctPlain v || acctMasked v

/-- `AccountNumberMatcher.detect_masking`. -/
def acctDetectMasking (value : Str) : MaskingType :=
  if hashShape value then .hash
  else if value.contains '*' then .part_mask
  else .plaintext

/-- value_patterns.py `detect_pii_in_value`: the registry `MATCHERS` is
iterated in its fixed order (email, phone, ssn, ip, zip, dob, account);
every matching matcher contributes a `(PIIType, MaskingType)` pair. -/
def detect_pii_in_value (value : Str) : List (PIIType × MaskingType) :=
  if (pyStrip value).isEmpty then []
  else
    let v := pyStrip value
    (if emailMatches v then [(.email, emailDetectMasking v)] else []) ++
    (if phoneMatches v then [(.phone, phoneDetectMasking v)] else []) ++
    (if ssnMatches v then [(.ssn, ssnDetectMasking v)] else []) ++
    (if ipMatches v then [(.ip_address, ipDetectMasking v)] else []) ++
    (if zipMatches v then [(.zip_code, zipDetectMasking v)] else []) ++
    (if dobMatches v then [(.dob, dobDetectMasking v)] else []) ++
    (if acctMatches v then [(.account_number, acctDetectMasking v)] else [])

/- ### utils/redaction.py -/

/-- redaction.py `mask_string` with `keep_chars` characters kept. -/
def mask_string (s : Str) (keep_chars : Nat) : Str :=
  if s.length ≤ keep_chars then List.replicate s.length '*'
  else s.take keep_chars ++ List.replicate (s.length - keep_chars) '*'

/-- redaction.py `redact_email` (the source indexes `local[0]` and
`domain_name[0]`, which is modelled by `take 1`; on the inputs produced by
the matchers those parts are nonempty). -/
def redact_email (email : Str) : Str :=
  if !(email.contains '@') then mask_string email 1
  else
    let loc := email.takeWhile (fun c => !(c == '@'))
    let domain := (email.drop loc.length).drop 1
    if domain.contains '.' then
      let parts := domain.splitOn '.'
      let domain_name := parts.headD []
      let domain_ext := List.intercalate (".".toList) (parts.drop 1)
      loc.take 1 ++ "***@".toList ++ domain_name.take 1 ++ "***.".toList ++ domain_ext
    else loc.take 1 ++ "***@".toList ++ domain.take 1 ++ "***".toList

/-- redaction.py `redact_ssn`. -/
def redact_ssn (ssn : Str) : Str :=
  if 4 ≤ ssn.length then "***-**-".toList ++ ssn.drop (ssn.length - 4)
  else "***".toList

/-- redaction.py `redact_phone`. -/
def redact_phone (phone : Str) : Str :=
  let digits := phone.filter Char.isDigit
  if 4 ≤ digits.length then "(***) ***-".toList ++ digits.drop (digits.length - 4)
  else "***".toList

/-- redaction.py `redact_credit_card`. -/
def redact_credit_card (card : Str) : Str :=
  let digits := card.filter Char.isDigit
  if 4 ≤ digits.length then "****".toList ++ digits.drop (digits.length - 4)
  else "****".toList

/-- redaction.py `redact_value`: dispatch on the PII type's value string. -/
def redact_value (value : Str) (t : PIIType) : Str :=
  match t with
  | .email => redact_email value
  | .ssn => redact_ssn value
  | .phone => redact_phone value
  | .credit_card => redact_credit_card value
  | _ => mask_string value 1

/- ### Shared scanning machinery of the assertion evaluators -/

/-- Decimal rendering of a Nat (Python `len(...)` interpolation). -/
def natStr (n : Nat) : Str := (Nat.repr n).toList

/-- One recorded occurrence: row index, stripped value, masking type. -/
abbrev Entry := Nat × Str × MaskingType

/-- The per-column `col_findings` dict: insertion-ordered buckets keyed by
PIIType. -/
abbrev Buckets := List (PIIType × List Entry)

/-- The source idiom
`if t not in d: d[t] = []` followed by `if len(d[t]) < max_violations:
d[t].append(e)`. -/
def bucketAdd : Buckets → PIIType → Entry → Nat → Buckets
  | [], t, e, mv => [(t, if 0 < mv then [e] else [])]
  | (t', v) :: rest, t, e, mv =>
      if t' = t then (t', if v.length < mv then v ++ [e] else v) :: rest
      else (t', v) :: bucketAdd rest t e mv

/-- Process one cell: skip NaN (`none`) and whitespace-only values, then
record every triggered (PIIType, MaskingType) pair into the buckets. -/
def processCell (trig : Str → List (PIIType × MaskingType)) (mv : Nat)
    (m : Buckets) (idx : Nat) (cell : Option Str) : Buckets :=
  match cell with
  | none => m
  | some v =>
      let s := pyStrip v
      if s.isEmpty then m
      else (trig s).foldl (fun m tm => bucketAdd m tm.1 (idx, s, tm.2) mv) m

/-- Scan one column in row order, building the per-column buckets. -/
def scanColumn (trig : Str → List (PIIType × MaskingType))
    (cells : List (Option Str)) (mv : Nat) : Buckets :=
  (cells.enum).foldl (fun m ic => processCell trig mv m ic.1 ic.2) []

/-- Per-cell recording logic shared verbatim by no_pii_assertion.py and the
target scan of leakage_path_assertion.py: registry detections filtered to
the wanted type set, then the Luhn credit-card check, then the
high-entropy-token check. -/
noncomputable def scanTriggers (wanted : List PIIType) (s : Str) :
    List (PIIType × MaskingType) :=
  (detect_pii_in_value s).filter (fun tm => decide (tm.1 ∈ wanted)) ++
  (if decide (PIIType.credit_card ∈ wanted) && is_credit_card s then
    [(.credit_card, detect_credit_card_masking s)] else []) ++
  (if decide (PIIType.high_entropy_token ∈ wanted) && is_high_entropy_token s then
    [(.high_entropy_token, .plaintext)] else [])

/-- masking_assertion.py violation rule: plaintext is always a violation,
hash is a violation unless the type is in `hash_allowed_for`, everything
else is acceptable. -/
def maskingViolation (hash_allowed : List PIIType) (t : PIIType) (m : MaskingType) : Bool :=
  match m with
  | .plaintext => true
  | .hash => decide (t ∉ hash_allowed)
  | _ => false

/-- Per-cell recording logic of masking_assertion.py: registry detections
restricted to `masking_required_for` with a masking violation, then the
credit-card check with the same violation rule. -/
def triggersMasking (required hash_allowed : List PIIType) (s : Str) :
    List (PIIType × MaskingType) :=
  (detect_pii_in_value s).filter
    (fun tm => decide (tm.1 ∈ required) && maskingViolation hash_allowed tm.1 tm.2) ++
  (if decide (PIIType.credit_card ∈ required) && is_credit_card s &&
      maskingViolation hash_allowed .credit_card (detect_credit_card_masking s) then
    [(.credit_card, detect_credit_card_masking s)] else [])

/-- Emit one Finding per nonempty bucket, the example drawn from the first
recorded occurrence. -/
def emitColumn (mk : PIIType → List Entry → Entry → Finding) (buckets : Buckets) :
    List Finding :=
  buckets.filterMap (fun tv =>
    match tv.2 with
    | [] => none
    | e :: rest => some (mk tv.1 (e :: rest) e))

/- ### assertions/no_pii_assertion.py -/

/-- The Finding built for one (column, PIIType) bucket by
`assert_no_forbidden_pii`. -/
def mkFindingNoPII (dsname col : Str) (t : PIIType) (v : List Entry) (first : Entry) :
    Finding :=
  { dataset := dsname, column := col, pii_type := t, masking_type := first.2.2,
    row_index := some first.1, redacted_sample := some (redact_value first.2.1 t),
    count := v.length, severity := .critical,
    message := "Forbidden PII type '".toList ++ piiTypeStr t ++
      "' found in column '".toList ++ col ++ "' (".toList ++ natStr v.length ++
      " occurrence(s))".toList }

/-- no_pii_assertion.py `assert_no_forbidden_pii`.  A DataFrame is an
ordered list of (column name, cells). -/
noncomputable def assert_no_forbidden_pii (df : List (Str × List (Option Str)))
    (policy : DatasetPolicy) (mv : Nat) : AssertionResult :=
  let forbidden := policy.forbidden_pii_types
  if forbidden.isEmpty then
    { assertion_type := "no_forbidden_pii".toList, dataset := policy.name, passed := true,
      findings := [], message := "No forbidden PII types specified in policy".toList,
      severity := .info }
  else
    let findings := (df.map (fun cv =>
      emitColumn (mkFindingNoPII policy.name cv.1)
        (scanColumn (scanTriggers forbidden) cv.2 mv))).flatten
    let passed := findings.isEmpty
    { assertion_type := "no_forbidden_pii".toList, dataset := policy.name,
      passed := passed, findings := findings,
      message :=
        if passed then "PASS: No forbidden PII detected in ".toList ++ policy.name
        else "FAIL: ".toList ++ policy.name ++ " contains ".toList ++
          natStr findings.length ++ " forbidden PII type(s) with ".toList ++
          natStr (findings.map (fun f => f.count)).sum ++ " total violation(s)".toList,
      severity := if passed then .info else .critical }

/- ### assertions/masking_assertion.py -/

/-- Finding severity chosen from the first recorded violation's masking. -/
def maskingSeverityOf (m : MaskingType) : Severity :=
  match m with
  | .plaintext => .critical
  | .hash => .high
  | _ => .medium

/-- Message detail chosen from the first recorded violation's masking. -/
def maskingDetail (m : MaskingType) : Str :=
  match m with
  | .plaintext => "not masked (plaintext detected)".toList
  | .hash => "hashed but hashing not allowed by policy".toList
  | _ => "masking insufficient".toList

/-- The Finding built for one (column, PIIType) bucket by
`assert_masking_applied`. -/
def mkFindingMasking (dsname col : Str) (t : PIIType) (v : List Entry) (first : Entry) :
    Finding :=
  { dataset := dsname, column := col, pii_type := t, masking_type := first.2.2,
    row_index := some first.1, redacted_sample := some (redact_value first.2.1 t),
    count := v.length, severity := maskingSeverityOf first.2.2,
    message := "Required masking not applied to '".toList ++ piiTypeStr t ++
      "' in column '".toList ++ col ++ "' (".toList ++ natStr v.length ++
      " occurrence(s)): ".toList ++ maskingDetail first.2.2 }

/-- Lexicographic order on character lists (Python string `<`). -/
def strLt : Str → Str → Bool
  | [], [] => false
  | [], _ :: _ => true
  | _ :: _, [] => false
  | a :: xs, b :: ys => a < b || (a == b && strLt xs ys)

/-- Python `max([f.severity for f in findings], default=INFO)`.  Severity
is a str-enum in the source, so Python compares the uppercase value
strings lexicographically. -/
def pyMaxSeverity (findings : List Finding) : Severity :=
  match findings with
  | [] => .info
  | f :: rest =>
      rest.foldl (fun acc g =>
        if strLt (severityStr acc) (severityStr g.severity) then g.severity else acc)
        f.severity

/-- masking_assertion.py `assert_masking_applied`. -/
def assert_masking_applied (df : List (Str × List (Option Str)))
    (policy : DatasetPolicy) (mv : Nat) : AssertionResult :=
  let required := policy.masking_required_for
  if required.isEmpty then
    { assertion_type := "masking_applied".toList, dataset := policy.name, passed := true,
      findings := [], message := "No masking requirements specified in policy".toList,
      severity := .info }
  else
    let findings := (df.map (fun cv =>
      emitColumn (mkFindingMasking policy.name cv.1)
        (scanColumn (triggersMasking required policy.hash_allowed_for) cv.2 mv))).flatten
    let passed := findings.isEmpty
    { assertion_type := "masking_applied".toList, dataset := policy.name,
      passed := passed, findings := findings,
      message :=
        if passed then "PASS: All required masking properly applied in ".toList ++ policy.name
        else "FAIL: ".toList ++ policy.name ++ " has ".toList ++
          natStr findings.length ++ " masking violation(s) with ".toList ++
          natStr (findings.map (fun f => f.count)).sum ++ " total occurrence(s)".toList,
      severity := if !passed then pyMaxSeverity findings else .info }

/- ### assertions/leakage_path_assertion.py -/

/-- Python `set.add` modelled on an insertion-ordered list. -/
def setAdd (l : List PIIType) (t : PIIType) : List PIIType :=
  if t ∈ l then l else l ++ [t]

/-- leakage_path_assertion.py `_detect_pii_types_in_dataframe`. -/
noncomputable def detect_pii_types_in_dataframe (df : List (Str × List (Option Str))) :
    List PIIType :=
  df.foldl (fun acc cv =>
    cv.2.foldl (fun acc cell =>
      match cell with
      | none => acc
      | some v =>
          let s := pyStrip v
          if s.isEmpty then acc
          else
            let acc1 := (detect_pii_in_value s).foldl (fun a tm => setAdd a tm.1) acc
            let acc2 := if is_credit_card s then setAdd acc1 .credit_card else acc1
            if is_high_entropy_token s then setAdd acc2 .high_entropy_token else acc2)
      acc) []

/-- The Finding built for one (column, PIIType) bucket by
`assert_no_pii_leakage`. -/
def mkFindingLeakage (srcname tgtname col : Str) (t : PIIType) (v : List Entry)
    (first : Entry) : Finding :=
  { dataset := tgtname, column := col, pii_type := t, masking_type := first.2.2,
    row_index := some first.1, redacted_sample := some (redact_value first.2.1 t),
    count := v.length, severity := .critical,
    message := "PII LEAKAGE: '".toList ++ piiTypeStr t ++ "' leaked from ".toList ++
      srcname ++ " to ".toList ++ tgtname ++ " in column '".toList ++ col ++
      "' (".toList ++ natStr v.length ++ " occurrence(s))".toList }

/-- leakage_path_assertion.py `assert_no_pii_leakage`.  The lineage edge is
a parameter of the source function but is never read by its body.  The
source intersects the target's forbidden set with the source dataset's
detected types; filtering the forbidden list by membership realises the
same set. -/
noncomputable def assert_no_pii_leakage (source_df target_df : List (Str × List (Option Str)))
    (source_policy target_policy : DatasetPolicy) (_lineage_edge : LineageEdge)
    (mv : Nat) : AssertionResult :=
  let target_forbidden := target_policy.forbidden_pii_types
  let dsname := source_policy.name ++ " -> ".toList ++ target_policy.name
  if target_forbidden.isEmpty then
    { assertion_type := "no_pii_leakage".toList, dataset := dsname, passed := true,
      findings := [], message := "No forbidden PII types in target policy".toList,
      severity := .info }
  else
    let source_pii_types := detect_pii_types_in_dataframe source_df
    let risky_types := target_forbidden.filter (fun t => decide (t ∈ source_pii_types))
    if risky_types.isEmpty then
      { assertion_type := "no_pii_leakage".toList, dataset := dsname, passed := true,
        findings := [],
        message := "No risky PII types flow from ".toList ++ source_policy.name ++
          " to ".toList ++ target_policy.name,
        severity := .info }
    else
      let findings := (target_df.map (fun cv =>
        emitColumn (mkFindingLeakage source_policy.name target_policy.name cv.1)
          (scanColumn (scanTriggers risky_types) cv.2 mv))).flatten
      let passed := findings.isEmpty
      { assertion_type := "no_pii_leakage".toList, dataset := dsname,
        passed := passed, findings := findings,
        message :=
          if passed then "PASS: No PII leakage detected from ".toList ++
            source_policy.name ++ " to ".toList ++ target_policy.name
          else "FAIL: ".toList ++ natStr ((findings.map (fun f => f.pii_type)).dedup).length ++
            " PII type(s) leaked from ".toList ++ source_policy.name ++ " to ".toList ++
            target_policy.name ++ " (".toList ++
            natStr (findings.map (fun f => f.count)).sum ++ " total occurrence(s))".toList,
        severity := if passed then .info else .critical }

/- ### lineage/graph_trace.py `detect_cycles` -/

/-- Append `v` to the adjacency list of `k`, inserting `k` if absent
(the `graph` dict of detect_cycles, insertion-ordered). -/
def graphAdd (g : List (Str × List Str)) (k v : Str) : List (Str × List Str) :=
  match g with
  | [] => [(k, [v])]
  | (k', vs) :: rest =>
      if k' = k then (k', vs ++ [v]) :: rest else (k', vs) :: graphAdd rest k v

/-- Adjacency lookup; a node absent from the dict has no neighbours. -/
def graphGet (g : List (Str × List Str)) (k : Str) : List Str :=
  match g with
  | [] => []
  | (k', vs) :: rest => if k' = k then vs else graphGet rest k

/-- Build the forward adjacency dict from the lineage edges. -/
def buildGraph (edges : List LineageEdge) : List (Str × List Str) :=
  edges.foldl (fun g e => graphAdd g e.source e.target) []

/-- Python `list.index` (first occurrence). -/
def idxOf (a : Str) : List Str → Nat
  | [] => 0
  | b :: rest => if b = a then 0 else idxOf a rest + 1

/-- Membership-guarded insertion into the `visited` set (modelled as an
insertion-ordered list; only membership is ever queried). -/
def setAddS (l : List Str) (s : Str) : List Str :=
  if s ∈ l then l else l ++ [s]

/-- The recursive `dfs` of detect_cycles.  State threads the globally
mutated `visited` set and `cycles` list; `rec_stack` equals the set of
nodes of the current path (it is restored on exit in the source, so each
call passes its own copy).  `fuel` bounds the recursion depth; it is
exhausted only beyond the depth the source can reach (each recursive call
targets an unvisited node). -/
def dfsCycles (g : List (Str × List Str)) :
    Nat → Str → List Str → List Str → List Str → List (List Str) →
    (List Str × List (List Str))
  | 0, _, _, visited, _, cycles => (visited, cycles)
  | fuel + 1, node, path0, visited0, recStack0, cycles0 =>
      let visited1 := setAddS visited0 node
      let recStack := recStack0 ++ [node]
      let path := path0 ++ [node]
      (graphGet g node).foldl (fun st nb =>
        if nb ∉ st.1 then
          dfsCycles g fuel nb path st.1 recStack st.2
        else if nb ∈ recStack then
          (st.1, st.2 ++ [path.drop (idxOf nb path) ++ [nb]])
        else st)
        (visited1, cycles0)

/-- graph_trace.py `detect_cycles` over the lineage edges of a config. -/
def detect_cycles (edges : List LineageEdge) : List (List Str) :=
  let g := buildGraph edges
  (g.foldl (fun st kv =>
    if kv.1 ∈ st.1 then st
    else dfsCycles g (edges.length + 2) kv.1 [] st.1 [] st.2) ([], [])).2

/- ### Specification-side definitions used to state the claims -/

/-- Luhn contribution of one digit: doubled-and-digit-summed when `dbl`. -/
def luhnContrib (dbl : Bool) (d : Nat) : Nat :=
  if dbl then (digitsOf (d * 2)).sum else d

/-- Modelled from the claim's wording of the Luhn rule: walk the digit
list from the rightmost digit (head of a reversed list), doubling every
second digit; `dbl` says whether the head position is doubled. -/
def luhnAltSum : List Nat → Bool → Nat
  | [], _ => 0
  | d :: r, dbl => luhnContrib dbl d + luhnAltSum r !dbl

/-- The doubling flag carried to offset `j` when the head flag is `b`. -/
def flagAt (b : Bool) (j : Nat) : Bool :=
  if j % 2 == 0 then b else !b

/-- Does a cell trigger a recording for PII type `t` under the given
per-cell trigger function?  (One cell contributes at most one occurrence
per type.) -/
def cellTriggersType (trig : Str → List (PIIType × MaskingType)) (t : PIIType)
    (cell : Option Str) : Bool :=
  match cell with
  | none => false
  | some v =>
      let s := pyStrip v
      !s.isEmpty && (trig s).any (fun tm => decide (tm.1 = t))

/-- The true total number of matching occurrences of type `t` in a column:
the number of non-null, non-empty cells whose scan triggers `t`. -/
def trueOccurrenceCount (trig : Str → List (PIIType × MaskingType))
    (cells : List (Option Str)) (t : PIIType) : Nat :=
  cells.countP (cellTriggersType trig t)

/-- Value of a bucket key (empty when absent). -/
def bucketGet : Buckets → PIIType → List Entry
  | [], _ => []
  | (t', v) :: rest, t => if t' = t then v else bucketGet rest t

/-- The fixed list of PII types owned by the registry matchers, in
registry order. -/
def registryTypes : List PIIType :=
  [.email, .phone, .ssn, .ip_address, .zip_code, .dob, .account_number]

/- ### Theorems -/

/-- C9: for every string made of a single repeated character (including
the empty string), the Shannon entropy is exactly 0. -/
theorem C9_shannon_entropy_uniform (c : Char) (n : Nat) :
    calculate_shannon_entropy (List.replicate n c) = 0 := by
  cases n with
  | zero => simp [calculate_shannon_entropy]
  | succ k =>
    have hded : (List.replicate (k + 1) c).dedup = [c] := by
      induction k with
      | zero => simp
      | succ m ih =>
          rw [List.replicate_succ,
            List.dedup_cons_of_mem (List.mem_replicate.mpr ⟨Nat.succ_ne_zero m, rfl⟩)]
          exact ih
    have h1 : ((k : ℝ) + 1) / ((k : ℝ) + 1) = 1 := div_self (by positivity)
    simp [calculate_shannon_entropy, hded, List.count_replicate_self,
      List.length_replicate, h1, Real.logb_one]

/-- C10: `should_fail_ci` is true exactly when some assertion result is
failed with severity CRITICAL or HIGH.  The source method reads only
`assertion_results`; `ThresholdConfig.fail_on_severity` is not an input
of the decision, so the characterisation is independent of it. -/
theorem C10_should_fail_ci_iff (sr : SuiteResult) :
    should_fail_ci sr = true ↔
      ∃ ar ∈ sr.assertion_results, ar.passed = false ∧
        (ar.severity = Severity.critical ∨ ar.severity = Severity.high) := by
  unfold should_fail_ci
  rw [decide_eq_true_iff, ← List.countP_eq_length_filter, List.countP_pos_iff]
  constructor
  · rintro ⟨ar, har, hp⟩
    simp only [Bool.and_eq_true, Bool.not_eq_true', decide_eq_true_iff] at hp
    exact ⟨ar, har, hp⟩
  · rintro ⟨ar, har, h1, h2⟩
    refine ⟨ar, har, ?_⟩
    simp [h1, h2]

/-- C7: with an empty forbidden list the forbidden-PII assertion passes
with severity info and no findings, whatever the dataset holds. -/
theorem C7_empty_forbidden_passes (df : List (Str × List (Option Str)))
    (policy : DatasetPolicy) (mv : Nat) (h : policy.forbidden_pii_types = []) :
    (assert_no_forbidden_pii df policy mv).passed = true ∧
    (assert_no_forbidden_pii df policy mv).severity = Severity.info ∧
    (assert_no_forbidden_pii df policy mv).findings = [] := by
  simp [assert_no_forbidden_pii, h]

/-- Witness for C7 on a dataset that does contain an email. -/
theorem C7_empty_forbidden_passes_witness :
    (⟨"ds".toList, "p".toList, "csv".toList, [], [], [], []⟩ :
        DatasetPolicy).forbidden_pii_types = [] ∧
    ((assert_no_forbidden_pii [("email".toList, [some ("a@x.com".toList)])]
        ⟨"ds".toList, "p".toList, "csv".toList, [], [], [], []⟩ 10).passed = true ∧
      (assert_no_forbidden_pii [("email".toList, [some ("a@x.com".toList)])]
        ⟨"ds".toList, "p".toList, "csv".toList, [], [], [], []⟩ 10).severity =
          Severity.info ∧
      (assert_no_forbidden_pii [("email".toList, [some ("a@x.com".toList)])]
        ⟨"ds".toList, "p".toList, "csv".toList, [], [], [], []⟩ 10).findings = []) :=
  ⟨rfl, C7_empty_forbidden_passes _ _ _ rfl⟩

/-- C8: on the lineage edges A→B, B→C, C→A, `detect_cycles` returns
exactly one cycle, [A, B, C, A] — traversal order from the DFS root,
closed by repeating the start node. -/
theorem C8_detect_cycles_triangle :
    detect_cycles [⟨"A".toList, "B".toList⟩, ⟨"B".toList, "C".toList⟩,
        ⟨"C".toList, "A".toList⟩] =
      [["A".toList, "B".toList, "C".toList, "A".toList]] := by
  decide

/-- C2: contrary to the claim (and to the source's own comments saying
"32, 40, or 64 hex characters"), the masking classifiers accept a hex
string of any length from 32 to 64 as a hash — a 33-character hex string
is classified hash — and `DOBMatcher.detect_masking` has no hash branch
at all, classifying even an exact 32-character hex string as plaintext. -/
theorem C2_hash_length_window_bug :
    emailDetectMasking (List.replicate 33 'a') = MaskingType.hash ∧
    phoneDetectMasking (List.replicate 33 'a') = MaskingType.hash ∧
    ssnDetectMasking (List.replicate 33 'a') = MaskingType.hash ∧
    ipDetectMasking (List.replicate 33 'a') = MaskingType.hash ∧
    acctDetectMasking (List.replicate 33 'a') = MaskingType.hash ∧
    detect_credit_card_masking (List.replicate 33 'a') = MaskingType.hash ∧
    (List.replicate 33 'a').length = 33 ∧
    dobDetectMasking (List.replicate 32 '0') = MaskingType.plaintext ∧
    hashShape (List.replicate 32 '0') = true := by
  decide

/-- `everyOther` peels one element and skips the next. -/
theorem everyOther_cons (a : Nat) (r : List Nat) :
    everyOther (a :: r) = a :: everyOther (r.drop 1) := by
  cases r <;> simp [everyOther]

/-- The source's slice-based Luhn sum equals the alternating-flag sum, for
both initial flags. -/
theorem luhnAltSum_everyOther (l : List Nat) :
    luhnAltSum l false =
      (everyOther l).sum +
        ((everyOther (l.drop 1)).map (fun d => (digitsOf (d * 2)).sum)).sum ∧
    luhnAltSum l true =
      ((everyOther l).map (fun d => (digitsOf (d * 2)).sum)).sum +
        (everyOther (l.drop 1)).sum := by
  induction l with
  | nil => simp [luhnAltSum, everyOther]
  | cons a r ih =>
      constructor
      · have h1 : luhnAltSum (a :: r) false = a + luhnAltSum r true := by
          simp [luhnAltSum, luhnContrib]
        rw [h1, ih.2, everyOther_cons]
        simp
        omega
      · have h1 : luhnAltSum (a :: r) true =
            (digitsOf (a * 2)).sum + luhnAltSum r false := by
          simp [luhnAltSum, luhnContrib]
        rw [h1, ih.1, everyOther_cons]
        simp
        omega

/-- `luhn_checksum` holds exactly when the alternating Luhn sum of the
reversed digit values is divisible by 10. -/
theorem luhn_checksum_iff (card : Str) :
    luhn_checksum card = true ↔
      luhnAltSum (card.map charVal).reverse false % 10 = 0 := by
  have h := (luhnAltSum_everyOther (card.map charVal).reverse).1
  simp only [luhn_checksum]
  rw [← h]
  simp

/-- Characterisation of `is_credit_card`: after separator removal the
value must be all digits, of length 13 to 19, with Luhn sum divisible
by 10. -/
theorem is_credit_card_iff_aux (value : Str) :
    is_credit_card value = true ↔
      ((removeSeps value).all Char.isDigit = true ∧
        13 ≤ (removeSeps value).length ∧ (removeSeps value).length ≤ 19 ∧
        luhnAltSum ((removeSeps value).map charVal).reverse false % 10 = 0) := by
  by_cases h1 : (removeSeps value).all Char.isDigit = true
  · by_cases h2 : 13 ≤ (removeSeps value).length
    · by_cases h3 : (removeSeps value).length ≤ 19
      · have hne : (removeSeps value).isEmpty = false := by
          cases hrs : removeSeps value with
          | nil => rw [hrs] at h2; simp at h2
          | cons x xs => simp
        simp [is_credit_card, pyIsDigitStr, hne, h1, h2, h3, Nat.not_lt.mpr h2,
          Nat.not_lt.mpr h3, luhn_checksum_iff]
      · simp only [is_credit_card, pyIsDigitStr]
        rw [if_pos]
        · simp [h3]
        · simp
          omega
    · simp only [is_credit_card, pyIsDigitStr]
      rw [if_pos]
      · simp [h2]
      · simp
        omega
  · simp only [is_credit_card, pyIsDigitStr]
    rw [if_pos]
    · simp [h1]
    · simp [h1]

/-- C5: `is_credit_card` accepts exactly the values that, after removing
whitespace and hyphens, are all-digit strings of length 13 to 19 passing
the Luhn checksum (double every second digit from the rightmost, sum the
digits of doubled values together with the undoubled digits, total
divisible by 10). -/
theorem C5_is_credit_card_characterisation (value : Str) :
    is_credit_card value = true ↔
      ((removeSeps value).all Char.isDigit = true ∧
        13 ≤ (removeSeps value).length ∧ (removeSeps value).length ≤ 19 ∧
        luhnAltSum ((removeSeps value).map charVal).reverse false % 10 = 0) :=
  is_credit_card_iff_aux value

/-- The code-point bounds behind `Char.isDigit`. -/
theorem isDigit_toNat (c : Char) (h : c.isDigit = true) :
    48 ≤ c.toNat ∧ c.toNat ≤ 57 := by
  simp [Char.isDigit] at h
  obtain ⟨h1, h2⟩ := h
  exact ⟨UInt32.le_toNat_of_le (by decide) h1, UInt32.toNat_le_of_le (by decide) h2⟩

theorem flagAt_zero (b : Bool) : flagAt b 0 = b := by
  simp [flagAt]

theorem flagAt_succ (b : Bool) (j : Nat) : flagAt b (j + 1) = flagAt (!b) j := by
  rcases Nat.mod_two_eq_zero_or_one j with h | h
  · have h2 : (j + 1) % 2 = 1 := by omega
    simp [flagAt, h, h2]
  · have h2 : (j + 1) % 2 = 0 := by omega
    simp [flagAt, h, h2]

/-- Replacing the digit at offset `j` shifts the alternating Luhn sum by
exactly the difference of the two contributions at that position. -/
theorem luhnAltSum_set (r : List Nat) : ∀ (j : Nat) (d : Nat) (b : Bool)
    (h : j < r.length),
    luhnAltSum (r.set j d) b + luhnContrib (flagAt b j) (r.get ⟨j, h⟩) =
      luhnAltSum r b + luhnContrib (flagAt b j) d := by
  induction r with
  | nil => intro j d b h; simp at h
  | cons x rest ih =>
      intro j d b h
      cases j with
      | zero =>
          simp [luhnAltSum, flagAt_zero]
          omega
      | succ jj =>
          have hj : jj < rest.length := by simpa using h
          have hrec := ih jj d (!b) hj
          simp only [List.get_eq_getElem] at hrec
          simp [luhnAltSum, flagAt_succ]
          omega

/-- Setting an element commutes with reversal at the mirrored index. -/
theorem reverse_set (r : List Nat) (i : Nat) (x : Nat) (h : i < r.length) :
    (r.set i x).reverse = r.reverse.set (r.length - 1 - i) x := by
  apply List.ext_getElem
  · simp
  · intro j hj1 hj2
    have hjlen : j < r.length := by simpa using hj1
    rw [List.getElem_reverse]
    simp only [List.length_set]
    rw [List.getElem_set, List.getElem_set, List.getElem_reverse]
    split_ifs with hA hB hB
    · rfl
    · omega
    · omega
    · rfl

/-- Both Luhn contribution maps are injective modulo 10 on digits. -/
theorem contrib_mod_ne_fin : ∀ (dbl : Bool) (x y : Fin 10), x ≠ y →
    luhnContrib dbl x.val % 10 ≠ luhnContrib dbl y.val % 10 := by
  decide

theorem contrib_mod_ne (dbl : Bool) (a c : Nat) (ha : a < 10) (hc : c < 10)
    (hne : a ≠ c) : luhnContrib dbl a % 10 ≠ luhnContrib dbl c % 10 :=
  contrib_mod_ne_fin dbl ⟨a, ha⟩ ⟨c, hc⟩ (fun hh => hne (congrArg Fin.val hh))

theorem charVal_lt (c : Char) (h : c.isDigit = true) : charVal c < 10 := by
  obtain ⟨h1, h2⟩ := isDigit_toNat c h
  show c.toNat - ('0').toNat < 10
  have h0 : ('0').toNat = 48 := rfl
  omega

theorem charVal_inj (a b : Char) (ha : a.isDigit = true) (hb : b.isDigit = true)
    (hne : a ≠ b) : charVal a ≠ charVal b := by
  obtain ⟨ha1, ha2⟩ := isDigit_toNat a ha
  obtain ⟨hb1, hb2⟩ := isDigit_toNat b hb
  have h0 : ('0').toNat = 48 := rfl
  intro h
  apply hne
  have hca : charVal a = a.toNat - ('0').toNat := rfl
  have hcb : charVal b = b.toNat - ('0').toNat := rfl
  have htn : a.toNat = b.toNat := by
    rw [hca, hcb] at h
    omega
  have := congrArg Char.ofNat htn
  rwa [Char.ofNat_toNat, Char.ofNat_toNat] at this

/-- Digits are untouched by separator removal. -/
theorem removeSeps_digits (l : Str) (h : l.all Char.isDigit = true) :
    removeSeps l = l := by
  rw [removeSeps, List.filter_eq_self]
  intro a ha
  have hd := isDigit_toNat a (List.all_eq_true.mp h a ha)
  have hne : ∀ (c : Char), c.toNat < 48 → a ≠ c := by
    intro c hcn e
    rw [e] at hd
    omega
  simp [pyIsSpace, beq_iff_eq, hne ' ' (by decide), hne '\t' (by decide),
    hne '\n' (by decide), hne '\x0d' (by decide), hne '\x0b' (by decide),
    hne '\x0c' (by decide), hne '-' (by decide)]

/-- Setting a digit character keeps the string all-digit. -/
theorem set_all_digits (l : Str) (i : Nat) (c : Char)
    (hall : l.all Char.isDigit = true) (hc : c.isDigit = true) :
    (l.set i c).all Char.isDigit = true := by
  rw [List.all_eq_true] at hall ⊢
  intro x hx
  rcases List.mem_or_eq_of_mem_set hx with h | h
  · exact hall x h
  · rw [h]; exact hc

/-- C6: for an all-digit string of length 13 to 19 accepted by
`is_credit_card`, replacing any single digit by a different digit yields a
rejected string: the Luhn checksum detects every single-digit
substitution. -/
theorem C6_luhn_detects_substitution (l : Str) (i : Nat) (c : Char)
    (hall : l.all Char.isDigit = true) (h13 : 13 ≤ l.length)
    (h19 : l.length ≤ 19) (hacc : is_credit_card l = true)
    (hi : i < l.length) (hc : c.isDigit = true)
    (hne : c ≠ l.get ⟨i, hi⟩) :
    is_credit_card (l.set i c) = false := by
  have hchar := (is_credit_card_iff_aux l).mp hacc
  rw [removeSeps_digits l hall] at hchar
  obtain ⟨-, -, -, hsum⟩ := hchar
  have hall2 : (l.set i c).all Char.isDigit = true := set_all_digits l i c hall hc
  rw [Bool.eq_false_iff]
  intro hacc2
  have hchar2 := (is_credit_card_iff_aux _).mp hacc2
  rw [removeSeps_digits _ hall2] at hchar2
  obtain ⟨-, -, -, hsum2⟩ := hchar2
  rw [List.map_set] at hsum2
  have hilen : i < (l.map charVal).length := by simpa using hi
  rw [reverse_set (l.map charVal) i (charVal c) hilen] at hsum2
  have hjlt : (l.map charVal).length - 1 - i < (l.map charVal).reverse.length := by
    simp
    omega
  have hset := luhnAltSum_set (l.map charVal).reverse
    ((l.map charVal).length - 1 - i) (charVal c) false hjlt
  have hget : (l.map charVal).reverse.get ⟨(l.map charVal).length - 1 - i, hjlt⟩ =
      charVal (l.get ⟨i, hi⟩) := by
    rw [List.get_eq_getElem, List.get_eq_getElem]
    rw [List.getElem_reverse]
    have hidx : (l.map charVal).length - 1 - ((l.map charVal).length - 1 - i) = i := by
      simp
      omega
    simp only [hidx]
    simp [List.getElem_map]
  have hmem : l.get ⟨i, hi⟩ ∈ l := List.get_mem l i hi
  have hv1 : charVal (l.get ⟨i, hi⟩) < 10 :=
    charVal_lt _ (List.all_eq_true.mp hall _ hmem)
  have hv2 : charVal c < 10 := charVal_lt c hc
  have hvne : charVal (l.get ⟨i, hi⟩) ≠ charVal c :=
    charVal_inj _ _ (List.all_eq_true.mp hall _ hmem) hc (Ne.symm hne)
  have hcontrib := contrib_mod_ne (flagAt false ((l.map charVal).length - 1 - i))
    _ _ hv1 hv2 hvne
  rw [hget] at hset
  omega

/-- Witness for C6: a valid Visa test number with its first digit changed. -/
theorem C6_luhn_detects_substitution_witness :
    (("4532015112830366".toList).all Char.isDigit = true ∧
      13 ≤ ("4532015112830366".toList).length ∧
      ("4532015112830366".toList).length ≤ 19 ∧
      is_credit_card ("4532015112830366".toList) = true ∧
      0 < ("4532015112830366".toList).length ∧
      ('9').isDigit = true ∧
      '9' ≠ ("4532015112830366".toList).get ⟨0, by decide⟩) ∧
    is_credit_card (("4532015112830366".toList).set 0 '9') = false :=
  ⟨⟨by decide, by decide, by decide, by decide, by decide, by decide, by decide⟩,
    C6_luhn_detects_substitution ("4532015112830366".toList) 0 '9' (by decide)
      (by decide) (by decide) (by decide) (by decide) (by decide) (by decide)⟩

/- Bucket and scan lemmas shared by the assertion claims -/

theorem bucketGet_add_same (m : Buckets) (t : PIIType) (e : Entry) (mv : Nat) :
    bucketGet (bucketAdd m t e mv) t =
      if (bucketGet m t).length < mv then bucketGet m t ++ [e] else bucketGet m t := by
  induction m with
  | nil =>
      by_cases h : 0 < mv
      · simp [bucketAdd, bucketGet, h]
      · simp [bucketAdd, bucketGet, h, Nat.not_lt.mp h]
  | cons kv rest ih =>
      obtain ⟨t', v⟩ := kv
      by_cases h : t' = t
      · subst h
        simp [bucketAdd, bucketGet]
      · simp [bucketAdd, bucketGet, h, ih]

theorem bucketGet_add_ne (m : Buckets) (t' t : PIIType) (e : Entry) (mv : Nat)
    (h : t' ≠ t) : bucketGet (bucketAdd m t' e mv) t = bucketGet m t := by
  induction m with
  | nil => simp [bucketAdd, bucketGet, h]
  | cons kv rest ih =>
      obtain ⟨t0, v⟩ := kv
      by_cases h0 : t0 = t'
      · subst h0
        simp [bucketAdd, bucketGet, h]
      · simp [bucketAdd, h0, bucketGet]
        by_cases h1 : t0 = t
        · simp [h1]
        · simp [h1, ih]

set_option synthInstance.maxHeartbeats 400000 in
theorem bucketAdd_keys (m : Buckets) (t : PIIType) (e : Entry) (mv : Nat) :
    (bucketAdd m t e mv).map Prod.fst =
      if t ∈ m.map Prod.fst then m.map Prod.fst else m.map Prod.fst ++ [t] := by
  induction m with
  | nil => simp [bucketAdd]
  | cons kv rest ih =>
      obtain ⟨t0, v⟩ := kv
      by_cases h0 : t0 = t
      · subst h0
        simp [bucketAdd]
      · simp [bucketAdd, h0, ih, Ne.symm h0]
        by_cases h1 : t ∈ rest.map Prod.fst <;> simp [h1, Ne.symm h0]

theorem bucketAdd_keys_nodup (m : Buckets) (t : PIIType) (e : Entry) (mv : Nat)
    (h : (m.map Prod.fst).Nodup) : ((bucketAdd m t e mv).map Prod.fst).Nodup := by
  rw [bucketAdd_keys]
  by_cases h1 : t ∈ m.map Prod.fst
  · simp [h1, h]
  · simp [h1, List.nodup_append, h]

theorem mem_nodup_bucketGet (m : Buckets) (t : PIIType) (v : List Entry)
    (hmem : (t, v) ∈ m) (hnd : (m.map Prod.fst).Nodup) : bucketGet m t = v := by
  induction m with
  | nil => simp at hmem
  | cons kv rest ih =>
      obtain ⟨t0, v0⟩ := kv
      rcases List.mem_cons.mp hmem with h | h
      · injection h with h1 h2
        subst h1
        subst h2
        simp [bucketGet]
      · have hnd' := (List.nodup_cons.mp hnd)
        have ht0 : t0 ≠ t := by
          intro e0
          subst e0
          exact hnd'.1 (List.mem_map.mpr ⟨(t0, v), h, rfl⟩)
        simp [bucketGet, ht0]
        exact ih h hnd'.2

/-- Folding trigger pairs whose types all differ from `t` leaves `t`'s
bucket unchanged. -/
theorem foldTrig_get_not_mem (i : Nat) (s : Str) (mv : Nat) (t : PIIType) :
    ∀ (tms : List (PIIType × MaskingType)) (m : Buckets),
    (∀ tm ∈ tms, tm.1 ≠ t) →
    bucketGet (tms.foldl (fun m tm => bucketAdd m tm.1 (i, s, tm.2) mv) m) t =
      bucketGet m t := by
  intro tms
  induction tms with
  | nil => intro m _; simp
  | cons tm rest ih =>
      intro m h
      simp only [List.foldl_cons]
      rw [ih _ (fun x hx => h x (List.mem_cons_of_mem tm hx))]
      exact bucketGet_add_ne m tm.1 t (i, s, tm.2) mv (h tm (List.mem_cons_self tm rest))

/-- Length change of `t`'s bucket after folding a trigger list that
mentions `t` at most once. -/
theorem foldTrig_get_len (i : Nat) (s : Str) (mv : Nat) (t : PIIType) :
    ∀ (tms : List (PIIType × MaskingType)) (m : Buckets),
    ((tms.map Prod.fst).count t ≤ 1) →
    (bucketGet (tms.foldl (fun m tm => bucketAdd m tm.1 (i, s, tm.2) mv) m) t).length =
      if tms.any (fun tm => decide (tm.1 = t)) then
        (if (bucketGet m t).length < mv then (bucketGet m t).length + 1
          else (bucketGet m t).length)
      else (bucketGet m t).length := by
  intro tms
  induction tms with
  | nil => intro m _; simp
  | cons tm rest ih =>
      intro m hcount
      by_cases ht : tm.1 = t
      · have hc0 : (rest.map Prod.fst).count t = 0 := by
          rw [List.map_cons, List.count_cons] at hcount
          simp [ht] at hcount
          omega
        have hrest : ∀ x ∈ rest, x.1 ≠ t := by
          intro x hx he
          exact (List.count_eq_zero.mp hc0) (List.mem_map.mpr ⟨x, hx, he⟩)
        simp only [List.foldl_cons]
        rw [foldTrig_get_not_mem i s mv t rest _ hrest]
        rw [ht, bucketGet_add_same]
        have hany : ((tm :: rest).any (fun tm => decide (tm.1 = t))) = true := by
          simp [ht]
        rw [if_pos hany]
        split_ifs <;> simp
      · simp only [List.foldl_cons]
        have hcount' : (rest.map Prod.fst).count t ≤ 1 := by
          rw [List.map_cons, List.count_cons] at hcount
          omega
        rw [ih (bucketAdd m tm.1 (i, s, tm.2) mv) hcount']
        rw [bucketGet_add_ne m tm.1 t (i, s, tm.2) mv ht]
        have hany : ((tm :: rest).any (fun tm => decide (tm.1 = t))) =
            (rest.any (fun tm => decide (tm.1 = t))) := by
          simp [ht]
        rw [hany]

/-- Length change of `t`'s bucket after processing one cell. -/
theorem processCell_get_len (trig : Str → List (PIIType × MaskingType)) (mv : Nat)
    (t : PIIType) (htrig : ∀ s, ((trig s).map Prod.fst).count t ≤ 1)
    (m : Buckets) (idx : Nat) (cell : Option Str) :
    (bucketGet (processCell trig mv m idx cell) t).length =
      if cellTriggersType trig t cell then
        (if (bucketGet m t).length < mv then (bucketGet m t).length + 1
          else (bucketGet m t).length)
      else (bucketGet m t).length := by
  cases cell with
  | none => simp [processCell, cellTriggersType]
  | some v =>
      by_cases hs : (pyStrip v).isEmpty
      · simp [processCell, cellTriggersType, hs]
      · simp only [processCell, cellTriggersType, hs]
        simp only [Bool.false_eq_true, if_false, Bool.not_false, Bool.true_and]
        rw [foldTrig_get_len idx (pyStrip v) mv t (trig (pyStrip v)) m (htrig _)]

/-- `countP` of a property of the payload is unchanged by enumeration. -/
theorem countP_enumFrom (P : Option Str → Bool) :
    ∀ (n : Nat) (cells : List (Option Str)),
    (List.enumFrom n cells).countP (fun ic => P ic.2) = cells.countP P := by
  intro n cells
  induction cells generalizing n with
  | nil => simp
  | cons c rest ih =>
      simp [List.enumFrom, List.countP_cons, ih]

/-- Core cap lemma: after scanning a column, the bucket of type `t` holds
exactly `min (true occurrence count) max_violations` entries. -/
theorem scanColumn_get_len (trig : Str → List (PIIType × MaskingType)) (mv : Nat)
    (t : PIIType) (htrig : ∀ s, ((trig s).map Prod.fst).count t ≤ 1)
    (cells : List (Option Str)) :
    (bucketGet (scanColumn trig cells mv) t).length =
      min (trueOccurrenceCount trig cells t) mv := by
  have haux : ∀ (pcells : List (Nat × Option Str)) (m : Buckets) (k : Nat),
      (bucketGet m t).length = min k mv →
      (bucketGet (pcells.foldl (fun m ic => processCell trig mv m ic.1 ic.2) m) t).length =
        min (k + pcells.countP (fun ic => cellTriggersType trig t ic.2)) mv := by
    intro pcells
    induction pcells with
    | nil => intro m k hm; simpa using hm
    | cons ic rest ih =>
        intro m k hm
        simp only [List.foldl_cons, List.countP_cons]
        by_cases hc : cellTriggersType trig t ic.2
        · have hstep : (bucketGet (processCell trig mv m ic.1 ic.2) t).length =
              min (k + 1) mv := by
            rw [processCell_get_len trig mv t htrig m ic.1 ic.2, if_pos hc, hm]
            split_ifs with h2 <;> omega
          rw [ih _ (k + 1) hstep]
          simp [hc]
          omega
        · have hstep : (bucketGet (processCell trig mv m ic.1 ic.2) t).length =
              min k mv := by
            rw [processCell_get_len trig mv t htrig m ic.1 ic.2, if_neg hc]
            exact hm
          rw [ih _ k hstep]
          simp [hc]
  have h0 : (bucketGet ([] : Buckets) t).length = min 0 mv := by simp [bucketGet]
  rw [scanColumn, haux (cells.enum) [] 0 h0]
  rw [List.enum, countP_enumFrom]
  simp [trueOccurrenceCount]

theorem foldTrig_keys_nodup (i : Nat) (s : Str) (mv : Nat) :
    ∀ (tms : List (PIIType × MaskingType)) (m : Buckets),
    (m.map Prod.fst).Nodup →
    (((tms.foldl (fun m tm => bucketAdd m tm.1 (i, s, tm.2) mv) m)).map Prod.fst).Nodup := by
  intro tms
  induction tms with
  | nil => intro m h; simpa using h
  | cons tm rest ih =>
      intro m h
      simp only [List.foldl_cons]
      exact ih _ (bucketAdd_keys_nodup m tm.1 (i, s, tm.2) mv h)

theorem processCell_keys_nodup (trig : Str → List (PIIType × MaskingType)) (mv : Nat)
    (m : Buckets) (idx : Nat) (cell : Option Str) (h : (m.map Prod.fst).Nodup) :
    ((processCell trig mv m idx cell).map Prod.fst).Nodup := by
  cases cell with
  | none => simpa [processCell] using h
  | some v =>
      by_cases hs : (pyStrip v).isEmpty
      · simpa [processCell, hs] using h
      · simp only [processCell, hs]
        simpa using foldTrig_keys_nodup idx (pyStrip v) mv (trig (pyStrip v)) m h

theorem scanColumn_keys_nodup (trig : Str → List (PIIType × MaskingType))
    (cells : List (Option Str)) (mv : Nat) :
    ((scanColumn trig cells mv).map Prod.fst).Nodup := by
  have haux : ∀ (pcells : List (Nat × Option Str)) (m : Buckets),
      (m.map Prod.fst).Nodup →
      ((pcells.foldl (fun m ic => processCell trig mv m ic.1 ic.2) m).map Prod.fst).Nodup := by
    intro pcells
    induction pcells with
    | nil => intro m h; simpa using h
    | cons ic rest ih =>
        intro m h
        simp only [List.foldl_cons]
        exact ih _ (processCell_keys_nodup trig mv m ic.1 ic.2 h)
  exact haux (cells.enum) [] (by simp)

set_option maxHeartbeats 1000000 in
/-- The registry loop of `detect_pii_in_value` yields at most one pair per
matcher, in fixed registry order. -/
theorem detect_types_sublist (v : Str) :
    List.Sublist ((detect_pii_in_value v).map Prod.fst) registryTypes := by
  have hblock : ∀ (c : Bool) (t : PIIType) (mk : MaskingType),
      List.Sublist ((if c = true then [(t, mk)] else []).map Prod.fst) [t] := by
    intro c t mk
    cases c <;> simp
  unfold detect_pii_in_value registryTypes
  cases hs : (pyStrip v).isEmpty with
  | true => simp [hs]
  | false =>
      simp only [hs, Bool.false_eq_true, if_false, List.map_append]
      show List.Sublist _ ([PIIType.email] ++ [PIIType.phone] ++ [PIIType.ssn] ++
        [PIIType.ip_address] ++ [PIIType.zip_code] ++ [PIIType.dob] ++
        [PIIType.account_number])
      refine List.Sublist.append ?_ (hblock _ _ _)
      refine List.Sublist.append ?_ (hblock _ _ _)
      refine List.Sublist.append ?_ (hblock _ _ _)
      refine List.Sublist.append ?_ (hblock _ _ _)
      refine List.Sublist.append ?_ (hblock _ _ _)
      refine List.Sublist.append ?_ (hblock _ _ _)
      exact hblock _ _ _

theorem scanTriggers_types_sublist (wanted : List PIIType) (s : Str) :
    List.Sublist ((scanTriggers wanted s).map Prod.fst)
      (registryTypes ++ [PIIType.credit_card] ++ [PIIType.high_entropy_token]) := by
  have hblock : ∀ (c : Bool) (t : PIIType) (mk : MaskingType),
      List.Sublist ((if c = true then [(t, mk)] else []).map Prod.fst) [t] := by
    intro c t mk
    cases c <;> simp
  unfold scanTriggers
  simp only [List.map_append]
  refine List.Sublist.append (List.Sublist.append ?_ (hblock _ _ _)) (hblock _ _ _)
  exact ((List.filter_sublist _).map Prod.fst).trans (detect_types_sublist s)

theorem scanTriggers_count (wanted : List PIIType) (s : Str) (t : PIIType) :
    ((scanTriggers wanted s).map Prod.fst).count t ≤ 1 := by
  have hnd : ((scanTriggers wanted s).map Prod.fst).Nodup :=
    (scanTriggers_types_sublist wanted s).nodup (by decide)
  exact List.nodup_iff_count_le_one.mp hnd t

theorem triggersMasking_types_sublist (required hash_allowed : List PIIType) (s : Str) :
    List.Sublist ((triggersMasking required hash_allowed s).map Prod.fst)
      (registryTypes ++ [PIIType.credit_card]) := by
  have hblock : ∀ (c : Bool) (t : PIIType) (mk : MaskingType),
      List.Sublist ((if c = true then [(t, mk)] else []).map Prod.fst) [t] := by
    intro c t mk
    cases c <;> simp
  unfold triggersMasking
  simp only [List.map_append]
  refine List.Sublist.append ?_ (hblock _ _ _)
  exact ((List.filter_sublist _).map Prod.fst).trans (detect_types_sublist s)

theorem triggersMasking_count (required hash_allowed : List PIIType) (s : Str)
    (t : PIIType) :
    ((triggersMasking required hash_allowed s).map Prod.fst).count t ≤ 1 := by
  have hnd : ((triggersMasking required hash_allowed s).map Prod.fst).Nodup :=
    (triggersMasking_types_sublist required hash_allowed s).nodup (by decide)
  exact List.nodup_iff_count_le_one.mp hnd t

/-- Every pair recorded by the shared scan logic has its type in the
wanted set. -/
theorem scanTriggers_mem (wanted : List PIIType) (s : Str)
    (tm : PIIType × MaskingType) (h : tm ∈ scanTriggers wanted s) :
    tm.1 ∈ wanted := by
  unfold scanTriggers at h
  rcases List.mem_append.mp h with h | h
  · rcases List.mem_append.mp h with h | h
    · exact of_decide_eq_true (List.mem_filter.mp h).2
    · by_cases hc : (decide (PIIType.credit_card ∈ wanted) && is_credit_card s) = true
      · rw [if_pos hc] at h
        simp at h hc
        rw [h]
        exact hc.1
      · rw [if_neg hc] at h
        simp at h
  · by_cases hc : (decide (PIIType.high_entropy_token ∈ wanted) &&
        is_high_entropy_token s) = true
    · rw [if_pos hc] at h
      simp at h hc
      rw [h]
      exact hc.1
    · rw [if_neg hc] at h
      simp at h

/-- Decompose membership in an emitted findings column. -/
theorem mem_emitColumn (mk : PIIType → List Entry → Entry → Finding)
    (buckets : Buckets) (f : Finding) (h : f ∈ emitColumn mk buckets) :
    ∃ t e rest, (t, e :: rest) ∈ buckets ∧ f = mk t (e :: rest) e := by
  unfold emitColumn at h
  rcases List.mem_filterMap.mp h with ⟨tv, htv, he⟩
  obtain ⟨t, v⟩ := tv
  cases v with
  | nil => simp at he
  | cons e rest =>
      simp at he
      exact ⟨t, e, rest, htv, he.symm⟩

theorem noPII_findings_eq (df : List (Str × List (Option Str))) (policy : DatasetPolicy)
    (mv : Nat) (hf : policy.forbidden_pii_types.isEmpty = false) :
    (assert_no_forbidden_pii df policy mv).findings =
      (df.map (fun cv => emitColumn (mkFindingNoPII policy.name cv.1)
        (scanColumn (scanTriggers policy.forbidden_pii_types) cv.2 mv))).flatten := by
  simp [assert_no_forbidden_pii, hf]

theorem masking_findings_eq (df : List (Str × List (Option Str))) (policy : DatasetPolicy)
    (mv : Nat) (hf : policy.masking_required_for.isEmpty = false) :
    (assert_masking_applied df policy mv).findings =
      (df.map (fun cv => emitColumn (mkFindingMasking policy.name cv.1)
        (scanColumn (triggersMasking policy.masking_required_for
          policy.hash_allowed_for) cv.2 mv))).flatten := by
  simp [assert_masking_applied, hf]

theorem leakage_findings_eq (source_df target_df : List (Str × List (Option Str)))
    (source_policy target_policy : DatasetPolicy) (edge : LineageEdge) (mv : Nat)
    (hf : target_policy.forbidden_pii_types.isEmpty = false)
    (hr : (target_policy.forbidden_pii_types.filter
      (fun t => decide (t ∈ detect_pii_types_in_dataframe source_df))).isEmpty = false) :
    (assert_no_pii_leakage source_df target_df source_policy target_policy edge
        mv).findings =
      (target_df.map (fun cv =>
        emitColumn (mkFindingLeakage source_policy.name target_policy.name cv.1)
          (scanColumn (scanTriggers (target_policy.forbidden_pii_types.filter
            (fun t => decide (t ∈ detect_pii_types_in_dataframe source_df))))
            cv.2 mv))).flatten := by
  simp [assert_no_pii_leakage, hf, hr]

theorem mem_findings_noPII (df : List (Str × List (Option Str)))
    (policy : DatasetPolicy) (mv : Nat) (f : Finding)
    (h : f ∈ (assert_no_forbidden_pii df policy mv).findings) :
    ∃ cv ∈ df, ∃ t e rest,
      (t, e :: rest) ∈ scanColumn (scanTriggers policy.forbidden_pii_types) cv.2 mv ∧
      f = mkFindingNoPII policy.name cv.1 t (e :: rest) e := by
  cases hf : policy.forbidden_pii_types.isEmpty with
  | true => simp [assert_no_forbidden_pii, hf] at h
  | false =>
      rw [noPII_findings_eq df policy mv hf] at h
      rcases List.mem_flatten.mp h with ⟨lf, hlf, hfl⟩
      rcases List.mem_map.mp hlf with ⟨cv, hcv, heq⟩
      subst heq
      rcases mem_emitColumn _ _ _ hfl with ⟨t, e, rest, hb, hf2⟩
      exact ⟨cv, hcv, t, e, rest, hb, hf2⟩

theorem mem_findings_masking (df : List (Str × List (Option Str)))
    (policy : DatasetPolicy) (mv : Nat) (f : Finding)
    (h : f ∈ (assert_masking_applied df policy mv).findings) :
    ∃ cv ∈ df, ∃ t e rest,
      (t, e :: rest) ∈ scanColumn (triggersMasking policy.masking_required_for
        policy.hash_allowed_for) cv.2 mv ∧
      f = mkFindingMasking policy.name cv.1 t (e :: rest) e := by
  cases hf : policy.masking_required_for.isEmpty with
  | true => simp [assert_masking_applied, hf] at h
  | false =>
      rw [masking_findings_eq df policy mv hf] at h
      rcases List.mem_flatten.mp h with ⟨lf, hlf, hfl⟩
      rcases List.mem_map.mp hlf with ⟨cv, hcv, heq⟩
      subst heq
      rcases mem_emitColumn _ _ _ hfl with ⟨t, e, rest, hb, hf2⟩
      exact ⟨cv, hcv, t, e, rest, hb, hf2⟩

theorem mem_findings_leakage (source_df target_df : List (Str × List (Option Str)))
    (source_policy target_policy : DatasetPolicy) (edge : LineageEdge) (mv : Nat)
    (f : Finding)
    (h : f ∈ (assert_no_pii_leakage source_df target_df source_policy target_policy
      edge mv).findings) :
    ∃ cv ∈ target_df, ∃ t e rest,
      (t, e :: rest) ∈ scanColumn (scanTriggers
        (target_policy.forbidden_pii_types.filter
          (fun t => decide (t ∈ detect_pii_types_in_dataframe source_df)))) cv.2 mv ∧
      f = mkFindingLeakage source_policy.name target_policy.name cv.1 t (e :: rest) e := by
  cases hf : target_policy.forbidden_pii_types.isEmpty with
  | true => simp [assert_no_pii_leakage, hf] at h
  | false =>
      cases hr : (target_policy.forbidden_pii_types.filter
          (fun t => decide (t ∈ detect_pii_types_in_dataframe source_df))).isEmpty with
      | true => simp [assert_no_pii_leakage, hf, hr] at h
      | false =>
          rw [leakage_findings_eq source_df target_df source_policy target_policy
            edge mv hf hr] at h
          rcases List.mem_flatten.mp h with ⟨lf, hlf, hfl⟩
          rcases List.mem_map.mp hlf with ⟨cv, hcv, heq⟩
          subst heq
          rcases mem_emitColumn _ _ _ hfl with ⟨t, e, rest, hb, hf2⟩
          exact ⟨cv, hcv, t, e, rest, hb, hf2⟩

/-- C4: in `assert_masking_applied`, an occurrence of a required type is
recorded as a violation exactly when its masking is plaintext, or hash
with the type not in `hash_allowed_for` (`maskingViolation` is the
recording test applied by `triggersMasking` to every detected occurrence);
and every emitted finding carries severity critical for plaintext, high
for hash, medium otherwise. -/
theorem C4_masking_violation_rule :
    (∀ (ha : List PIIType) (t : PIIType) (m : MaskingType),
      maskingViolation ha t m = true ↔
        (m = MaskingType.plaintext ∨ (m = MaskingType.hash ∧ t ∉ ha))) ∧
    (∀ (df : List (Str × List (Option Str))) (policy : DatasetPolicy) (mv : Nat)
        (f : Finding), f ∈ (assert_masking_applied df policy mv).findings →
      f.severity = (if f.masking_type = MaskingType.plaintext then Severity.critical
        else if f.masking_type = MaskingType.hash then Severity.high
        else Severity.medium)) := by
  constructor
  · intro ha t m
    cases m <;> simp [maskingViolation]
  · intro df policy mv f h
    rcases mem_findings_masking df policy mv f h with ⟨cv, hcv, t, e, rest, hb, hf2⟩
    subst hf2
    cases he : e.2.2 <;> simp [mkFindingMasking, maskingSeverityOf, he]

/-- Witness for C4: two plaintext SSNs under a masking-required policy
produce a finding with severity critical. -/
theorem C4_masking_violation_rule_witness :
    (mkFindingMasking ("ds".toList) ("ssn".toList) PIIType.ssn
        [(0, "123-45-6789".toList, MaskingType.plaintext),
          (1, "234-56-7890".toList, MaskingType.plaintext)]
        (0, "123-45-6789".toList, MaskingType.plaintext)) ∈
      (assert_masking_applied
        [("ssn".toList, [some ("123-45-6789".toList), some ("234-56-7890".toList)])]
        ⟨"ds".toList, "p".toList, "csv".toList, [], [], [PIIType.ssn], []⟩ 10).findings ∧
    (mkFindingMasking ("ds".toList) ("ssn".toList) PIIType.ssn
        [(0, "123-45-6789".toList, MaskingType.plaintext),
          (1, "234-56-7890".toList, MaskingType.plaintext)]
        (0, "123-45-6789".toList, MaskingType.plaintext)).severity =
      (if (mkFindingMasking ("ds".toList) ("ssn".toList) PIIType.ssn
          [(0, "123-45-6789".toList, MaskingType.plaintext),
            (1, "234-56-7890".toList, MaskingType.plaintext)]
          (0, "123-45-6789".toList, MaskingType.plaintext)).masking_type =
            MaskingType.plaintext then Severity.critical
        else if (mkFindingMasking ("ds".toList) ("ssn".toList) PIIType.ssn
          [(0, "123-45-6789".toList, MaskingType.plaintext),
            (1, "234-56-7890".toList, MaskingType.plaintext)]
          (0, "123-45-6789".toList, MaskingType.plaintext)).masking_type =
            MaskingType.hash then Severity.high
        else Severity.medium) :=
  ⟨by decide,
    C4_masking_violation_rule.2
      [("ssn".toList, [some ("123-45-6789".toList), some ("234-56-7890".toList)])]
      ⟨"ds".toList, "p".toList, "csv".toList, [], [], [PIIType.ssn], []⟩ 10 _ (by decide)⟩

/-- C1 (amended): each Finding emitted by the forbidden-PII and
masking-required assertions for a (column, PIIType) bucket has its count
equal to min(true total occurrences in that column, max_violations) —
the recording loop appends to a bucket only while it holds fewer than
max_violations entries and reports the bucket's length as the count, so
the count itself is capped rather than the true total. -/
theorem C1_count_min_cap :
    (∀ (df : List (Str × List (Option Str))) (policy : DatasetPolicy) (mv : Nat)
        (f : Finding), f ∈ (assert_no_forbidden_pii df policy mv).findings →
      ∃ cells, (f.column, cells) ∈ df ∧
        f.count = min (trueOccurrenceCount (scanTriggers policy.forbidden_pii_types)
          cells f.pii_type) mv) ∧
    (∀ (df : List (Str × List (Option Str))) (policy : DatasetPolicy) (mv : Nat)
        (f : Finding), f ∈ (assert_masking_applied df policy mv).findings →
      ∃ cells, (f.column, cells) ∈ df ∧
        f.count = min (trueOccurrenceCount (triggersMasking policy.masking_required_for
          policy.hash_allowed_for) cells f.pii_type) mv) := by
  constructor
  · intro df policy mv f h
    rcases mem_findings_noPII df policy mv f h with ⟨cv, hcv, t, e, rest, hb, hf2⟩
    refine ⟨cv.2, ?_, ?_⟩
    · subst hf2
      simpa [mkFindingNoPII] using hcv
    · have hget := mem_nodup_bucketGet _ t (e :: rest) hb
        (scanColumn_keys_nodup (scanTriggers policy.forbidden_pii_types) cv.2 mv)
      have hlen := scanColumn_get_len (scanTriggers policy.forbidden_pii_types) mv t
        (fun s => scanTriggers_count policy.forbidden_pii_types s t) cv.2
      rw [hget] at hlen
      subst hf2
      simpa [mkFindingNoPII] using hlen
  · intro df policy mv f h
    rcases mem_findings_masking df policy mv f h with ⟨cv, hcv, t, e, rest, hb, hf2⟩
    refine ⟨cv.2, ?_, ?_⟩
    · subst hf2
      simpa [mkFindingMasking] using hcv
    · have hget := mem_nodup_bucketGet _ t (e :: rest) hb
        (scanColumn_keys_nodup (triggersMasking policy.masking_required_for
          policy.hash_allowed_for) cv.2 mv)
      have hlen := scanColumn_get_len (triggersMasking policy.masking_required_for
          policy.hash_allowed_for) mv t
        (fun s => triggersMasking_count policy.masking_required_for
          policy.hash_allowed_for s t) cv.2
      rw [hget] at hlen
      subst hf2
      simpa [mkFindingMasking] using hlen

/-- Witness for C1 (amended), at max_violations 1 with two matching rows:
the emitted count is min 2 1 = 1. -/
theorem C1_count_min_cap_witness :
    (mkFindingNoPII ("ds".toList) ("c".toList) PIIType.ssn
        [(0, "123-45-6789".toList, MaskingType.plaintext)]
        (0, "123-45-6789".toList, MaskingType.plaintext)) ∈
      (assert_no_forbidden_pii
        [("c".toList, [some ("123-45-6789".toList), some ("234-56-7890".toList)])]
        ⟨"ds".toList, "p".toList, "csv".toList, [], [PIIType.ssn], [], []⟩ 1).findings ∧
    (∃ cells, (((mkFindingNoPII ("ds".toList) ("c".toList) PIIType.ssn
        [(0, "123-45-6789".toList, MaskingType.plaintext)]
        (0, "123-45-6789".toList, MaskingType.plaintext)).column, cells) ∈
          [("c".toList, [some ("123-45-6789".toList), some ("234-56-7890".toList)])] ∧
      (mkFindingNoPII ("ds".toList) ("c".toList) PIIType.ssn
        [(0, "123-45-6789".toList, MaskingType.plaintext)]
        (0, "123-45-6789".toList, MaskingType.plaintext)).count =
        min (trueOccurrenceCount (scanTriggers [PIIType.ssn]) cells
          (mkFindingNoPII ("ds".toList) ("c".toList) PIIType.ssn
            [(0, "123-45-6789".toList, MaskingType.plaintext)]
            (0, "123-45-6789".toList, MaskingType.plaintext)).pii_type) 1)) :=
  ⟨by decide,
    C1_count_min_cap.1
      [("c".toList, [some ("123-45-6789".toList), some ("234-56-7890".toList)])]
      ⟨"ds".toList, "p".toList, "csv".toList, [], [PIIType.ssn], [], []⟩ 1 _ (by decide)⟩

/-- C1 counterexample: with max_violations 1 and two SSN occurrences in
one column, the emitted finding's count is 1, while the true total number
of matching occurrences is 2 — the count is not the true total. -/
theorem C1_count_capped_counterexample :
    ((assert_no_forbidden_pii
        [("c".toList, [some ("123-45-6789".toList), some ("234-56-7890".toList)])]
        ⟨"ds".toList, "p".toList, "csv".toList, [], [PIIType.ssn], [], []⟩ 1).findings.map
          (fun f => f.count)) = [1] ∧
    trueOccurrenceCount (scanTriggers [PIIType.ssn])
      [some ("123-45-6789".toList), some ("234-56-7890".toList)] PIIType.ssn = 2 ∧
    (1 : Nat) ≠ 2 := by
  refine ⟨by decide, by decide, by decide⟩

/-- C3: the leakage assertion passes with severity info when the target's
forbidden list is empty, and — independently of the target dataset — when
no PII type detected in the source dataset is forbidden in the target;
otherwise every emitted finding is critical, is for a risky type (both
forbidden in the target and detected in the source), and carries the
"PII LEAKAGE" message, distinct from every plain forbidden-PII message. -/
theorem C3_leakage_behaviour :
    (∀ (source_df target_df : List (Str × List (Option Str)))
        (source_policy target_policy : DatasetPolicy) (edge : LineageEdge) (mv : Nat),
      target_policy.forbidden_pii_types = [] →
        (assert_no_pii_leakage source_df target_df source_policy target_policy edge
          mv).passed = true ∧
        (assert_no_pii_leakage source_df target_df source_policy target_policy edge
          mv).severity = Severity.info) ∧
    (∀ (source_df target_df : List (Str × List (Option Str)))
        (source_policy target_policy : DatasetPolicy) (edge : LineageEdge) (mv : Nat),
      (∀ t ∈ detect_pii_types_in_dataframe source_df,
          t ∉ target_policy.forbidden_pii_types) →
        (assert_no_pii_leakage source_df target_df source_policy target_policy edge
          mv).passed = true ∧
        (assert_no_pii_leakage source_df target_df source_policy target_policy edge
          mv).severity = Severity.info) ∧
    (∀ (source_df target_df : List (Str × List (Option Str)))
        (source_policy target_policy : DatasetPolicy) (edge : LineageEdge) (mv : Nat)
        (f : Finding),
      f ∈ (assert_no_pii_leakage source_df target_df source_policy target_policy edge
          mv).findings →
        f.severity = Severity.critical ∧
        f.pii_type ∈ target_policy.forbidden_pii_types ∧
        f.pii_type ∈ detect_pii_types_in_dataframe source_df ∧
        f.message.take 12 = ("PII LEAKAGE:".toList) ∧
        (∀ (df2 : List (Str × List (Option Str))) (pol2 : DatasetPolicy) (mv2 : Nat)
            (g : Finding), g ∈ (assert_no_forbidden_pii df2 pol2 mv2).findings →
          f.message ≠ g.message)) := by
  refine ⟨?_, ?_, ?_⟩
  · intro source_df target_df source_policy target_policy edge mv h
    constructor <;> simp [assert_no_pii_leakage, h]
  · intro source_df target_df source_policy target_policy edge mv h
    cases hf : target_policy.forbidden_pii_types.isEmpty with
    | true => constructor <;> simp [assert_no_pii_leakage, hf]
    | false =>
        have hfilter : (target_policy.forbidden_pii_types.filter
            (fun t => decide (t ∈ detect_pii_types_in_dataframe source_df))) = [] := by
          rw [List.filter_eq_nil_iff]
          intro t ht
          simp only [decide_eq_true_eq]
          intro hdet
          exact (h t hdet) ht
        constructor <;> simp [assert_no_pii_leakage, hf, hfilter]
  · intro source_df target_df source_policy target_policy edge mv f h
    rcases mem_findings_leakage source_df target_df source_policy target_policy edge
      mv f h with ⟨cv, hcv, t, e, rest, hb, hf2⟩
    have hget := mem_nodup_bucketGet _ t (e :: rest) hb
      (scanColumn_keys_nodup _ cv.2 mv)
    have hlen := scanColumn_get_len (scanTriggers
        (target_policy.forbidden_pii_types.filter
          (fun x => decide (x ∈ detect_pii_types_in_dataframe source_df)))) mv t
      (fun s => scanTriggers_count (target_policy.forbidden_pii_types.filter
        (fun x => decide (x ∈ detect_pii_types_in_dataframe source_df))) s t) cv.2
    rw [hget] at hlen
    have hpos : 0 < trueOccurrenceCount (scanTriggers
        (target_policy.forbidden_pii_types.filter
          (fun x => decide (x ∈ detect_pii_types_in_dataframe source_df)))) cv.2 t := by
      have hl : 0 < (e :: rest).length := by simp
      omega
    rw [trueOccurrenceCount] at hpos
    rcases List.countP_pos_iff.mp hpos with ⟨cell, hcell, htrigd⟩
    have htr : t ∈ target_policy.forbidden_pii_types.filter
        (fun x => decide (x ∈ detect_pii_types_in_dataframe source_df)) := by
      cases cell with
      | none => simp [cellTriggersType] at htrigd
      | some v =>
          simp only [cellTriggersType, Bool.and_eq_true] at htrigd
          rcases List.any_eq_true.mp htrigd.2 with ⟨tm, htm, hdec⟩
          have htmt : tm.1 = t := of_decide_eq_true hdec
          have := scanTriggers_mem _ _ tm htm
          rwa [htmt] at this
    have hmem := List.mem_filter.mp htr
    refine ⟨?_, ?_, ?_, ?_, ?_⟩
    · subst hf2
      rfl
    · subst hf2
      exact hmem.1
    · subst hf2
      exact of_decide_eq_true hmem.2
    · subst hf2
      rfl
    · subst hf2
      intro df2 pol2 mv2 g hg
      rcases mem_findings_noPII df2 pol2 mv2 g hg with ⟨cv2, hcv2, t2, e2, rest2, hb2, hg2⟩
      subst hg2
      intro heq
      have h2 : (['P'] : Str) = (['F'] : Str) := congrArg (List.take 1) heq
      simp at h2

/-- Witness for C3: an email flows from source to a target that forbids
email; the emitted finding is critical, risky-typed, and labelled as
leakage. -/
theorem C3_leakage_behaviour_witness :
    (mkFindingLeakage ("s".toList) ("t".toList) ("contact".toList) PIIType.email
        [(0, "b@y.com".toList, MaskingType.plaintext)]
        (0, "b@y.com".toList, MaskingType.plaintext)) ∈
      (assert_no_pii_leakage [("e".toList, [some ("a@x.com".toList)])]
        [("contact".toList, [some ("b@y.com".toList)])]
        ⟨"s".toList, "p".toList, "csv".toList, [PIIType.email], [], [], []⟩
        ⟨"t".toList, "p".toList, "csv".toList, [], [PIIType.email], [], []⟩
        ⟨"s".toList, "t".toList⟩ 10).findings ∧
    (mkFindingLeakage ("s".toList) ("t".toList) ("contact".toList) PIIType.email
        [(0, "b@y.com".toList, MaskingType.plaintext)]
        (0, "b@y.com".toList, MaskingType.plaintext)).severity = Severity.critical ∧
    (mkFindingLeakage ("s".toList) ("t".toList) ("contact".toList) PIIType.email
        [(0, "b@y.com".toList, MaskingType.plaintext)]
        (0, "b@y.com".toList, MaskingType.plaintext)).pii_type ∈
      (⟨"t".toList, "p".toList, "csv".toList, [], [PIIType.email], [], []⟩ :
        DatasetPolicy).forbidden_pii_types ∧
    (mkFindingLeakage ("s".toList) ("t".toList) ("contact".toList) PIIType.email
        [(0, "b@y.com".toList, MaskingType.plaintext)]
        (0, "b@y.com".toList, MaskingType.plaintext)).pii_type ∈
      detect_pii_types_in_dataframe [("e".toList, [some ("a@x.com".toList)])] ∧
    (mkFindingLeakage ("s".toList) ("t".toList) ("contact".toList) PIIType.email
        [(0, "b@y.com".toList, MaskingType.plaintext)]
        (0, "b@y.com".toList, MaskingType.plaintext)).message.take 12 =
      ("PII LEAKAGE:".toList) :=
  ⟨by decide,
    (C3_leakage_behaviour.2.2 [("e".toList, [some ("a@x.com".toList)])]
      [("contact".toList, [some ("b@y.com".toList)])]
      ⟨"s".toList, "p".toList, "csv".toList, [PIIType.email], [], [], []⟩
      ⟨"t".toList, "p".toList, "csv".toList, [], [PIIType.email], [], []⟩
      ⟨"s".toList, "t".toList⟩ 10 _ (by decide)).1,
    (C3_leakage_behaviour.2.2 [("e".toList, [some ("a@x.com".toList)])]
      [("contact".toList, [some ("b@y.com".toList)])]
      ⟨"s".toList, "p".toList, "csv".toList, [PIIType.email], [], [], []⟩
      ⟨"t".toList, "p".toList, "csv".toList, [], [PIIType.email], [], []⟩
      ⟨"s".toList, "t".toList⟩ 10 _ (by decide)).2.1,
    (C3_leakage_behaviour.2.2 [("e".toList, [some ("a@x.com".toList)])]
      [("contact".toList, [some ("b@y.com".toList)])]
      ⟨"s".toList, "p".toList, "csv".toList, [PIIType.email], [], [], []⟩
      ⟨"t".toList, "p".toList, "csv".toList, [], [PIIType.email], [], []⟩
      ⟨"s".toList, "t".toList⟩ 10 _ (by decide)).2.2.1,
    (C3_leakage_behaviour.2.2 [("e".toList, [some ("a@x.com".toList)])]
      [("contact".toList, [some ("b@y.com".toList)])]
      ⟨"s".toList, "p".toList, "csv".toList, [PIIType.email], [], [], []⟩
      ⟨"t".toList, "p".toList, "csv".toList, [], [PIIType.email], [], []⟩
      ⟨"s".toList, "t".toList⟩ 10 _ (by decide)).2.2.2.1⟩
